import Mathlib

/-!
Verification of the presence-to-timeline aggregation engine of the
slack-presence repository.

Timestamps are modelled as integer milliseconds since the Unix epoch
(JavaScript `Date.getTime()`).  Presence statuses and block statuses are
the literal strings used by the code (`"active"` / `"away"`,
`"online"` / `"offline"` / `"no-data"`).  The JavaScript floating-point
expression `Math.round((a / t) * 100)` is modelled by the exact integer
value `⌊100 * a / t + 1 / 2⌋ = (200 * a + t) / (2 * t)`, which agrees with
the double-precision computation on all block-sized inputs.

The repository contains several near-duplicate route handlers; each is
embedded separately so that their diverging boundary math and
classification rules can be compared:

* `classifyToday` / half-open bucketing — `app/api/dashboard/presence-data/route.ts`
  (first handler in the file), today's 96-block timeline.
* `classifyTodayOverview` — the today-overview handler (fourth handler in
  the same file).
* `classifyActiveOnly` — the optimized user-timelines handler (second
  handler), which fetches only `status = 'active'` rows.
* `classifyUserTimelinesIncl` / inclusive bucketing — the user-timelines
  handler (third handler) using `log.timestamp <= blockEnd`.
* `userTimelinesBlockStart/End` — `src/app/api/dashboard/user-timelines/route.ts`,
  whose `setHours(hour, quarter*15+14, 59, 999)` block ends 1 ms early.
* `classifyUserActivity`, `userActivityGET` — the per-user activity
  handler (`part_004`).
-/

namespace SlackPresence

/-- One presence snapshot row as selected by the routes:
`{userId, status, timestamp}`.  `status` is the literal string stored by
the collector (`"active"` or `"away"`). -/
structure PLog where
  userId : Nat
  status : String
  timestamp : Int
deriving Repr, DecidableEq, Inhabited

/-- The test `log.status === 'active'` used throughout the routes. -/
def isActiveLog (l : PLog) : Bool := l.status == "active"

/-- Count of active snapshots in a block:
`blockLogs.filter(log => log.status === 'active').length`. -/
def countActive (blockLogs : List PLog) : Nat :=
  (blockLogs.filter isActiveLog).length

/-- Exact-integer model of `Math.round((a / t) * 100)`:
the value is `⌊100 * a / t + 1 / 2⌋`, computed as `(200 * a + t) / (2 * t)`
in natural-number division (0 when `t = 0`, a case the code never
evaluates with `t = 0` except via the fixed denominator 15). -/
def roundPct (a t : Nat) : Nat := (200 * a + t) / (2 * t)

/-- The classification result carried by a block:
status string, `activeMinutes` and `onlinePercentage`. -/
structure BlockStats where
  status : String
  activeMinutes : Nat
  onlinePercentage : Nat
deriving Repr, DecidableEq

/-- Block classifier of the presence-data today timeline (first handler):
`activeMinutes` counts active snapshots, `onlinePercentage =
Math.round((activeMinutes / 15) * 100)`, and the status is `no-data` for
an empty block, `online` when `activeMinutes > 0`, else `offline`. -/
def classifyToday (blockLogs : List PLog) : BlockStats :=
  let activeMinutes := countActive blockLogs
  let onlinePercentage := roundPct activeMinutes 15
  let status : String :=
    if blockLogs.length = 0 then "no-data"
    else if activeMinutes > 0 then "online"
    else "offline"
  ⟨status, activeMinutes, onlinePercentage⟩

/-- Block classifier of the today-overview handler (fourth handler in the
presence-data file): identical arithmetic to `classifyToday`, with the
active count taken only when the block is non-empty. -/
def classifyTodayOverview (blockLogs : List PLog) : BlockStats :=
  let activeMinutes := if blockLogs.length > 0 then countActive blockLogs else 0
  let onlinePercentage := roundPct activeMinutes 15
  let status : String :=
    if blockLogs.length = 0 then "no-data"
    else if activeMinutes > 0 then "online"
    else "offline"
  ⟨status, activeMinutes, onlinePercentage⟩

/-- Block classifier of the inclusive-bound user-timelines handler (third
handler in the presence-data file) and of
`src/app/api/dashboard/user-timelines/route.ts`:
`presencePercentage = (activeMinutes / totalMinutesWithData) * 100` when
data is present (else 0), status is `online` when that percentage is at
least 50, and `onlinePercentage = Math.round(presencePercentage)`.
The comparison `presencePercentage >= 50` is expressed exactly as
`100 * activeMinutes ≥ 50 * totalMinutesWithData`. -/
def classifyUserTimelinesIncl (blockLogs : List PLog) : BlockStats :=
  let activeMinutes := countActive blockLogs
  let totalMinutesWithData := blockLogs.length
  let status : String :=
    if totalMinutesWithData > 0 then
      if 100 * activeMinutes ≥ 50 * totalMinutesWithData then "online" else "offline"
    else "no-data"
  let onlinePercentage :=
    if totalMinutesWithData > 0 then roundPct activeMinutes totalMinutesWithData else 0
  ⟨status, activeMinutes, onlinePercentage⟩

/-- Block classifier of the per-user activity handler (`part_004`):
`onlinePercentage = Math.round((activeMinutes / blockLogs.length) * 100)`
when the block is non-empty (else 0), and the status requires at least 6
active minutes for `online`. -/
def classifyUserActivity (blockLogs : List PLog) : BlockStats :=
  let activeMinutes := countActive blockLogs
  let onlinePercentage :=
    if blockLogs.length > 0 then roundPct activeMinutes blockLogs.length else 0
  let status : String :=
    if blockLogs.length = 0 then "no-data"
    else if activeMinutes ≥ 6 then "online"
    else "offline"
  ⟨status, activeMinutes, onlinePercentage⟩

/-- The counting loop of the optimized user-timelines handler (second
handler in the presence-data file): walk the sorted timestamps, count
those in `[blockStart, blockEnd)` and break at the first timestamp at or
past `blockEnd`. -/
def countActiveLoop (ts : List Int) (blockStart blockEnd : Int) : Nat :=
  match ts with
  | [] => 0
  | t :: rest =>
    if blockStart ≤ t ∧ t < blockEnd then 1 + countActiveLoop rest blockStart blockEnd
    else if blockEnd ≤ t then 0
    else countActiveLoop rest blockStart blockEnd

/-- Block classification of the optimized user-timelines handler: only
active timestamps were fetched, so `activeMinutes` is the loop count;
status stays `no-data` unless some activity was seen, in which case the
rounded percentage is compared with the 30% threshold. -/
def classifyActiveOnly (sortedTs : List Int) (blockStart blockEnd : Int) : BlockStats :=
  let activeMinutes := countActiveLoop sortedTs blockStart blockEnd
  if activeMinutes > 0 then
    let onlinePercentage := roundPct activeMinutes 15
    ⟨if onlinePercentage ≥ 30 then "online" else "offline", activeMinutes, onlinePercentage⟩
  else ⟨"no-data", activeMinutes, 0⟩

/-- The active-only handler extracts the timestamps of the fetched rows
(all of which have `status = 'active'`). -/
def activeTimestamps (logs : List PLog) : List Int :=
  (logs.filter isActiveLog).map (·.timestamp)

/-- Block start used by every presence-data handler:
`dayStart + (hour * 60 + quarter * 15) * 60 * 1000`. -/
def blockStartMs (dayStart : Int) (hour quarter : Nat) : Int :=
  dayStart + (hour * 60 + quarter * 15 : Nat) * 60000

/-- Block end used by the presence-data handlers:
`blockStart + 15 * 60 * 1000`. -/
def blockEndMs (dayStart : Int) (hour quarter : Nat) : Int :=
  blockStartMs dayStart hour quarter + 900000

/-- Half-open block membership filter
`log.timestamp >= blockStart && log.timestamp < blockEnd` (first, second
and fourth presence-data handlers, today-overview and `part_004`). -/
def blockLogsHalfOpen (dayLogs : List PLog) (blockStart blockEnd : Int) : List PLog :=
  dayLogs.filter fun l => decide (blockStart ≤ l.timestamp ∧ l.timestamp < blockEnd)

/-- Inclusive block membership filter
`log.timestamp >= blockStart && log.timestamp <= blockEnd` (third
presence-data handler). -/
def blockLogsInclusive (dayLogs : List PLog) (blockStart blockEnd : Int) : List PLog :=
  dayLogs.filter fun l => decide (blockStart ≤ l.timestamp ∧ l.timestamp ≤ blockEnd)

/-- Snapshots assigned by the half-open rule to the block with flat index
`i = hour * 4 + quarter` of the day starting at `dayStart`. -/
def blockLogsAt (dayLogs : List PLog) (dayStart : Int) (i : Nat) : List PLog :=
  blockLogsHalfOpen dayLogs (blockStartMs dayStart (i / 4) (i % 4))
    (blockEndMs dayStart (i / 4) (i % 4))

/-- Snapshots assigned by the inclusive rule to the block with flat index
`i = hour * 4 + quarter` of the day starting at `dayStart`. -/
def blockLogsInclAt (dayLogs : List PLog) (dayStart : Int) (i : Nat) : List PLog :=
  blockLogsInclusive dayLogs (blockStartMs dayStart (i / 4) (i % 4))
    (blockEndMs dayStart (i / 4) (i % 4))

/-- One emitted timeline block. -/
structure Block where
  hour : Nat
  quarter : Nat
  blockIndex : Nat
  status : String
  onlinePercentage : Nat
  activeMinutes : Nat
  totalMinutes : Nat
  blockStart : Int
  blockEnd : Int
deriving Repr, DecidableEq, Inhabited

/-- One block of the presence-data today timeline (first handler). -/
def mkTodayBlock (todayStart : Int) (todayLogs : List PLog) (hour quarter : Nat) : Block :=
  let bs := blockStartMs todayStart hour quarter
  let be := blockEndMs todayStart hour quarter
  let stats := classifyToday (blockLogsHalfOpen todayLogs bs be)
  { hour := hour, quarter := quarter, blockIndex := hour * 4 + quarter,
    status := stats.status, onlinePercentage := stats.onlinePercentage,
    activeMinutes := stats.activeMinutes, totalMinutes := 15,
    blockStart := bs, blockEnd := be }

/-- The 96-block today timeline of the presence-data handler: the nested
`for hour / for quarter` loops pushing one block each. -/
def todayTimeline (todayStart : Int) (todayLogs : List PLog) : List Block :=
  ((List.range 24).map fun hour =>
    (List.range 4).map fun quarter => mkTodayBlock todayStart todayLogs hour quarter).flatten

/-- Block start of `src/app/api/dashboard/user-timelines/route.ts`:
`blockStart.setHours(hour, quarter * 15, 0, 0)` applied to a copy of the
(midnight-aligned) `dayStart`, i.e. `dayStart + (hour*60 + quarter*15)` minutes. -/
def userTimelinesBlockStart (dayStart : Int) (hour quarter : Nat) : Int :=
  dayStart + (hour * 60 + quarter * 15 : Nat) * 60000

/-- Block end of `src/app/api/dashboard/user-timelines/route.ts`:
`blockEnd.setHours(hour, quarter * 15 + 14, 59, 999)`, i.e.
`dayStart + (hour*60 + quarter*15 + 14)` minutes plus `59.999` seconds —
one millisecond before the next block start. -/
def userTimelinesBlockEnd (dayStart : Int) (hour quarter : Nat) : Int :=
  dayStart + (hour * 60 + (quarter * 15 + 14) : Nat) * 60000 + 59999

/-- One block of the `src/app/api/dashboard/user-timelines/route.ts`
timeline: inclusive membership filter between the `setHours` bounds and
the 50%-of-samples classification. -/
def mkUserTimelinesBlock (dayStart : Int) (dayLogs : List PLog) (hour quarter : Nat) : Block :=
  let bs := userTimelinesBlockStart dayStart hour quarter
  let be := userTimelinesBlockEnd dayStart hour quarter
  let stats := classifyUserTimelinesIncl (blockLogsInclusive dayLogs bs be)
  { hour := hour, quarter := quarter, blockIndex := hour * 4 + quarter,
    status := stats.status, onlinePercentage := stats.onlinePercentage,
    activeMinutes := stats.activeMinutes, totalMinutes := 15,
    blockStart := bs, blockEnd := be }

/-- The 96-block day timeline emitted by
`src/app/api/dashboard/user-timelines/route.ts`. -/
def userTimelinesDayTimeline (dayStart : Int) (dayLogs : List PLog) : List Block :=
  ((List.range 24).map fun hour =>
    (List.range 4).map fun quarter => mkUserTimelinesBlock dayStart dayLogs hour quarter).flatten

/-- The currently-online check of the presence-data handler: keep the
logs of the trailing 15 minutes, take the most recent one, and report
whether that single log is active. -/
def isCurrentlyOnlinePresenceData (todayLogs : List PLog) (nowMs : Int) : Bool :=
  let fifteenMinutesAgo := nowMs - 15 * 60 * 1000
  let recentLogs := todayLogs.filter fun l => decide (fifteenMinutesAgo ≤ l.timestamp)
  match recentLogs.getLast? with
  | some l => l.status == "active"
  | none => false

/-- The currently-online check of the today-overview handler
(`part_006`): true when some active log lies in the trailing 15
minutes. -/
def isCurrentlyOnlineTodayOverview (logs : List PLog) (nowMs : Int) : Bool :=
  let fifteenMinutesAgo := nowMs - 15 * 60 * 1000
  let recentActiveLogs := logs.filter fun l =>
    decide (fifteenMinutesAgo ≤ l.timestamp) && isActiveLog l
  recentActiveLogs.length > 0

/-- English weekday names indexed Sunday = 0 … Saturday = 6. -/
def weekdayLongNames : List String :=
  ["Sunday", "Monday", "Tuesday", "Wednesday", "Thursday", "Friday", "Saturday"]

/-- Weekday index of an epoch-day number (1970-01-01 was a Thursday). -/
def weekdayIndexOfEpochDay (days : Int) : Nat := ((days + 4) % 7).toNat

/-- Model of `format(date, 'EEEE')` from date-fns as called by the
presence-data handler: date-fns formats in the process-local timezone, so
the weekday is taken from the local calendar day containing the instant,
i.e. from `⌊(utcMs + tzOffsetMin * 60000) / 86400000⌋`. -/
def dateFnsFormatWeekdayLong (utcMs tzOffsetMin : Int) : String :=
  weekdayLongNames.getD (weekdayIndexOfEpochDay ((utcMs + tzOffsetMin * 60000).fdiv 86400000)) ""

/-- The day-generation loop of the per-user activity handler
(`part_004`): `while (currentDate <= adjustedEndDate) { push(currentDate);
currentDate += 1 day }`, with enough fuel to cover the whole range. -/
def dayLoop : Nat → Int → Int → List Int
  | 0, _, _ => []
  | Nat.succ fuel, cur, endMs =>
    if cur ≤ endMs then cur :: dayLoop fuel (cur + 86400000) endMs
    else []

/-- Day starts generated by the per-user activity handler for the
resolved `[startMs, endMs]` range. -/
def userActivityDays (startMs endMs : Int) : List Int :=
  dayLoop ((endMs - startMs).toNat / 86400000 + 1) startMs endMs

/-- Outcome of the per-user activity route: HTTP-equivalent status code
plus the generated day starts. -/
structure UserActivityResponse where
  httpStatus : Nat
  days : List Int
deriving Repr, DecidableEq

/-- Control flow of the per-user activity handler (`part_004`) after the
userId check: 404 when the user is unknown, otherwise a 200 success whose
day list is produced by the unvalidated range loop.  No range validation
of any kind is performed. -/
def userActivityGET (userFound : Bool) (startMs endMs : Int) : UserActivityResponse :=
  if userFound then ⟨200, userActivityDays startMs endMs⟩
  else ⟨404, []⟩

/-- The `orderBy: [{userId: 'asc'}, {timestamp: 'asc'}]` comparison used
by the presence-data queries. -/
def presenceKeyLe (a b : PLog) : Bool :=
  decide (a.userId < b.userId ∨ (a.userId = b.userId ∧ a.timestamp ≤ b.timestamp))

/-- The historical-window query of the presence-data handler: rows with
`timelineRangeStart <= timestamp < todayStart`, ordered by
`(userId asc, timestamp asc)`, truncated by `take: 40000`. -/
def fetchHistoricalWindow (store : List PLog) (timelineRangeStart todayStart : Int) : List PLog :=
  (((store.filter fun r =>
      decide (timelineRangeStart ≤ r.timestamp ∧ r.timestamp < todayStart)).mergeSort
    presenceKeyLe).take 40000)

/-- The active-only query of the optimized user-timelines handler: rows
with `rangeStart <= timestamp <= rangeEnd` and `status = 'active'`,
ordered by `(userId asc, timestamp asc)`, truncated by `take: 15000`. -/
def fetchActiveWindow (store : List PLog) (rangeStart rangeEnd : Int) : List PLog :=
  (((store.filter fun r =>
      decide (rangeStart ≤ r.timestamp ∧ r.timestamp ≤ rangeEnd) && isActiveLog r).mergeSort
    presenceKeyLe).take 15000)

end SlackPresence

namespace SlackPresence

example : roundPct 2 15 = 13 := by decide
example : roundPct 2 3 = 67 := by decide
example : roundPct 16 15 = 107 := by decide
example : classifyToday [⟨1, "active", 0⟩, ⟨1, "active", 60000⟩, ⟨1, "away", 120000⟩]
    = ⟨"online", 2, 13⟩ := by decide
example : classifyUserTimelinesIncl [⟨1, "active", 0⟩, ⟨1, "active", 60000⟩, ⟨1, "away", 120000⟩]
    = ⟨"online", 2, 67⟩ := by decide
example : (todayTimeline 0 []).length = 96 := by decide
example : dateFnsFormatWeekdayLong 1704067200000 0 = "Monday" := by decide
example : dateFnsFormatWeekdayLong 1704067200000 (-300) = "Sunday" := by decide
example : userActivityDays 86400000 0 = [] := by decide
example : userActivityDays 0 86400000 = [0, 86400000] := by decide
example : (userTimelinesDayTimeline 0 []).length = 96 := by decide
example : isCurrentlyOnlinePresenceData
    [⟨1, "active", 999400000⟩, ⟨1, "away", 999940000⟩] 1000000000 = false := by decide
example : isCurrentlyOnlineTodayOverview
    [⟨1, "active", 999400000⟩, ⟨1, "away", 999940000⟩] 1000000000 = true := by decide
example : fetchActiveWindow [⟨1, "away", 5⟩, ⟨1, "active", 3⟩] 0 10 = [⟨1, "active", 3⟩] := by
  simp [fetchActiveWindow, List.mergeSort, isActiveLog]

/-- C4 counterexample: on the block `[active, active, away]` the
presence-data today classifier — code cited by the claim — yields
`onlinePercentage = Math.round((2 / 15) * 100) = 13`, not the claimed 67
(the denominator is the fixed 15, not the 3 observed samples), and the
per-user activity classifier — the other cited site — yields the claimed
67 but status `offline` (it requires 6 active minutes), not `online`. -/
theorem c4_counterexample_today_classifier :
    (classifyToday [⟨1, "active", 0⟩, ⟨1, "active", 60000⟩, ⟨1, "away", 120000⟩]).onlinePercentage = 13
    ∧ (classifyToday [⟨1, "active", 0⟩, ⟨1, "active", 60000⟩, ⟨1, "away", 120000⟩]).onlinePercentage ≠ 67
    ∧ (classifyToday [⟨1, "active", 0⟩, ⟨1, "active", 60000⟩, ⟨1, "away", 120000⟩]).activeMinutes = 2
    ∧ (classifyUserActivity [⟨1, "active", 0⟩, ⟨1, "active", 60000⟩, ⟨1, "away", 120000⟩]).onlinePercentage = 67
    ∧ (classifyUserActivity [⟨1, "active", 0⟩, ⟨1, "active", 60000⟩, ⟨1, "away", 120000⟩]).status = "offline"
    ∧ (classifyUserActivity [⟨1, "active", 0⟩, ⟨1, "active", 60000⟩, ⟨1, "away", 120000⟩]).status ≠ "online" := by
  decide

/-- C4 (amended): the 50%-of-samples classifier used by the inclusive
user-timelines handlers yields exactly the claimed result on
`[active, active, away]` — `activeMinutes = 2`, `onlinePercentage = 67`,
status `online` — and in general its `onlinePercentage` is
`round(activeMinutes / totalSnapshots * 100)` for a non-empty block and 0
for an empty one.  The presence-data today classifier instead divides by
the fixed 15 and reports 13 for the same block. -/
theorem c4_fifty_percent_classifier :
    classifyUserTimelinesIncl [⟨1, "active", 0⟩, ⟨1, "active", 60000⟩, ⟨1, "away", 120000⟩]
      = ⟨"online", 2, 67⟩
    ∧ ∀ blockLogs : List PLog,
        (classifyUserTimelinesIncl blockLogs).onlinePercentage
          = if blockLogs.length > 0 then roundPct (countActive blockLogs) blockLogs.length else 0 := by
  exact ⟨by decide, fun blockLogs => rfl⟩

/-- C5 counterexample: the optimized user-timelines handler fetches only
`status = 'active'` rows, so a block whose underlying snapshots are
`[away, away, away, away]` reaches its classifier with no timestamps at
all and is reported `no-data`, not the claimed `offline`. -/
theorem c5_counterexample_active_only_route :
    (classifyActiveOnly
        (((activeTimestamps
            [⟨1, "away", 60000⟩, ⟨1, "away", 120000⟩, ⟨1, "away", 180000⟩, ⟨1, "away", 240000⟩]).mergeSort
          fun a b => decide (a ≤ b))) 0 900000).status = "no-data"
    ∧ (classifyActiveOnly
        (((activeTimestamps
            [⟨1, "away", 60000⟩, ⟨1, "away", 120000⟩, ⟨1, "away", 180000⟩, ⟨1, "away", 240000⟩]).mergeSort
          fun a b => decide (a ≤ b))) 0 900000).status ≠ "offline" := by
  have h : activeTimestamps
      [⟨1, "away", 60000⟩, ⟨1, "away", 120000⟩, ⟨1, "away", 180000⟩, ⟨1, "away", 240000⟩] = [] := by
    decide
  rw [h]
  simp [List.mergeSort_nil, classifyActiveOnly, countActiveLoop]

/-- C5 (amended): in every handler that fetches both statuses — the
presence-data today classifier, the today-overview classifier, the
inclusive user-timelines classifier and the per-user activity classifier
— a block of exactly `[away, away, away, away]` is classified `offline`
with `activeMinutes = 0`; only the active-only user-timelines handler,
which never sees away rows, reports such a block as `no-data`. -/
theorem c5_all_away_block_offline :
    classifyToday [⟨1, "away", 60000⟩, ⟨1, "away", 120000⟩, ⟨1, "away", 180000⟩, ⟨1, "away", 240000⟩]
      = ⟨"offline", 0, 0⟩
    ∧ classifyTodayOverview [⟨1, "away", 60000⟩, ⟨1, "away", 120000⟩, ⟨1, "away", 180000⟩, ⟨1, "away", 240000⟩]
      = ⟨"offline", 0, 0⟩
    ∧ classifyUserTimelinesIncl [⟨1, "away", 60000⟩, ⟨1, "away", 120000⟩, ⟨1, "away", 180000⟩, ⟨1, "away", 240000⟩]
      = ⟨"offline", 0, 0⟩
    ∧ classifyUserActivity [⟨1, "away", 60000⟩, ⟨1, "away", 120000⟩, ⟨1, "away", 180000⟩, ⟨1, "away", 240000⟩]
      = ⟨"offline", 0, 0⟩ := by
  decide

/-- C7: the presence-data handler derives weekday labels with
`format(workday, 'EEEE')`, which formats in the process-local timezone:
for the same `dayStart` instant 2024-01-01T00:00:00Z the label is
`Monday` under UTC but `Sunday` under UTC-05:00, so the label is not a
pure function of the calendar date implied by `dayStart`. -/
theorem c7_weekday_depends_on_server_timezone :
    dateFnsFormatWeekdayLong 1704067200000 0 = "Monday"
    ∧ dateFnsFormatWeekdayLong 1704067200000 (-300) = "Sunday"
    ∧ ("Monday" : String) ≠ "Sunday" := by
  decide

/-- C9: the classifiers with the fixed denominator 15 do not clamp the
percentage: whenever a block holds more than 15 active snapshots,
`activeMinutes` exceeds 15 and the reported `onlinePercentage =
Math.round((activeMinutes / 15) * 100)` exceeds 100, in both the
presence-data today classifier and the today-overview classifier. -/
theorem c9_percentage_not_clamped (blockLogs : List PLog)
    (h : 15 < countActive blockLogs) :
    15 < (classifyToday blockLogs).activeMinutes
    ∧ 100 < (classifyToday blockLogs).onlinePercentage
    ∧ 15 < (classifyTodayOverview blockLogs).activeMinutes
    ∧ 100 < (classifyTodayOverview blockLogs).onlinePercentage := by
  have hle : countActive blockLogs ≤ blockLogs.length := List.length_filter_le _ _
  have hpos : 0 < blockLogs.length := by omega
  simp only [classifyToday, classifyTodayOverview, roundPct, if_pos hpos]
  omega

/-- C9 witness: a block of 16 active snapshots has `activeMinutes = 16`
and `onlinePercentage = 107`. -/
theorem c9_witness :
    15 < countActive
      [⟨1, "active", 0⟩, ⟨1, "active", 60000⟩, ⟨1, "active", 120000⟩, ⟨1, "active", 180000⟩,
       ⟨1, "active", 240000⟩, ⟨1, "active", 300000⟩, ⟨1, "active", 360000⟩, ⟨1, "active", 420000⟩,
       ⟨1, "active", 480000⟩, ⟨1, "active", 540000⟩, ⟨1, "active", 600000⟩, ⟨1, "active", 660000⟩,
       ⟨1, "active", 720000⟩, ⟨1, "active", 780000⟩, ⟨1, "active", 840000⟩, ⟨1, "active", 845000⟩]
    ∧ (15 < (classifyToday
        [⟨1, "active", 0⟩, ⟨1, "active", 60000⟩, ⟨1, "active", 120000⟩, ⟨1, "active", 180000⟩,
         ⟨1, "active", 240000⟩, ⟨1, "active", 300000⟩, ⟨1, "active", 360000⟩, ⟨1, "active", 420000⟩,
         ⟨1, "active", 480000⟩, ⟨1, "active", 540000⟩, ⟨1, "active", 600000⟩, ⟨1, "active", 660000⟩,
         ⟨1, "active", 720000⟩, ⟨1, "active", 780000⟩, ⟨1, "active", 840000⟩, ⟨1, "active", 845000⟩]).activeMinutes
      ∧ 100 < (classifyToday
        [⟨1, "active", 0⟩, ⟨1, "active", 60000⟩, ⟨1, "active", 120000⟩, ⟨1, "active", 180000⟩,
         ⟨1, "active", 240000⟩, ⟨1, "active", 300000⟩, ⟨1, "active", 360000⟩, ⟨1, "active", 420000⟩,
         ⟨1, "active", 480000⟩, ⟨1, "active", 540000⟩, ⟨1, "active", 600000⟩, ⟨1, "active", 660000⟩,
         ⟨1, "active", 720000⟩, ⟨1, "active", 780000⟩, ⟨1, "active", 840000⟩, ⟨1, "active", 845000⟩]).onlinePercentage
      ∧ 15 < (classifyTodayOverview
        [⟨1, "active", 0⟩, ⟨1, "active", 60000⟩, ⟨1, "active", 120000⟩, ⟨1, "active", 180000⟩,
         ⟨1, "active", 240000⟩, ⟨1, "active", 300000⟩, ⟨1, "active", 360000⟩, ⟨1, "active", 420000⟩,
         ⟨1, "active", 480000⟩, ⟨1, "active", 540000⟩, ⟨1, "active", 600000⟩, ⟨1, "active", 660000⟩,
         ⟨1, "active", 720000⟩, ⟨1, "active", 780000⟩, ⟨1, "active", 840000⟩, ⟨1, "active", 845000⟩]).activeMinutes
      ∧ 100 < (classifyTodayOverview
        [⟨1, "active", 0⟩, ⟨1, "active", 60000⟩, ⟨1, "active", 120000⟩, ⟨1, "active", 180000⟩,
         ⟨1, "active", 240000⟩, ⟨1, "active", 300000⟩, ⟨1, "active", 360000⟩, ⟨1, "active", 420000⟩,
         ⟨1, "active", 480000⟩, ⟨1, "active", 540000⟩, ⟨1, "active", 600000⟩, ⟨1, "active", 660000⟩,
         ⟨1, "active", 720000⟩, ⟨1, "active", 780000⟩, ⟨1, "active", 840000⟩, ⟨1, "active", 845000⟩]).onlinePercentage) := by
  exact ⟨by decide, c9_percentage_not_clamped _ (by decide)⟩

/-- Helper: the day loop run with full fuel over the range
`[startMs, startMs + n days]` yields exactly `n + 1` day starts. -/
theorem dayLoop_full_length (n : Nat) : ∀ startMs : Int,
    (dayLoop (n + 1) startMs (startMs + 86400000 * n)).length = n + 1 := by
  induction n with
  | zero =>
    intro startMs
    simp [dayLoop]
  | succ m ih =>
    intro startMs
    have hstep : startMs + 86400000 * ((m + 1 : Nat) : Int)
        = (startMs + 86400000) + 86400000 * (m : Int) := by push_cast; ring
    have hunf : dayLoop (m + 1 + 1) startMs (startMs + 86400000 * ((m + 1 : Nat) : Int))
        = if startMs ≤ startMs + 86400000 * ((m + 1 : Nat) : Int) then
            startMs :: dayLoop (m + 1) (startMs + 86400000)
              (startMs + 86400000 * ((m + 1 : Nat) : Int))
          else [] := rfl
    rw [hunf, if_pos (by push_cast; omega), hstep, List.length_cons, ih (startMs + 86400000)]

/-- C8 counterexample: a request whose resolved range has
`rangeEnd < rangeStart` is not rejected: the per-user activity handler
returns a 200 success whose day list is empty, never an
InvalidRange/400-equivalent error. -/
theorem c8_counterexample_inverted_range :
    userActivityGET true 86400000 0 = ⟨200, []⟩
    ∧ (userActivityGET true 86400000 0).httpStatus ≠ 400 := by
  decide

/-- C8 (amended): the routes perform no InvalidRange validation at all.
Whenever the user exists, an inverted range (`rangeEnd < rangeStart`)
produces a 200 response with zero day entries, and a range spanning any
number of days — with no upper bound — produces a 200 response with one
entry per day; only missing-userId (400) and unknown-user (404) errors
exist on this path. -/
theorem c8_no_range_validation :
    (∀ startMs endMs : Int, endMs < startMs → userActivityGET true startMs endMs = ⟨200, []⟩)
    ∧ ∀ (startMs : Int) (n : Nat),
        (userActivityGET true startMs (startMs + 86400000 * n)).httpStatus = 200
        ∧ (userActivityGET true startMs (startMs + 86400000 * n)).days.length = n + 1 := by
  constructor
  · intro startMs endMs hlt
    have hfuel : (endMs - startMs).toNat / 86400000 + 1 = 0 + 1 := by omega
    simp only [userActivityGET, if_pos trivial, userActivityDays, hfuel]
    rw [dayLoop, if_neg (by omega)]
  · intro startMs n
    have hfuel : (startMs + 86400000 * (n : Int) - startMs).toNat / 86400000 + 1 = n + 1 := by
      omega
    refine ⟨rfl, ?_⟩
    simp only [userActivityGET, if_pos trivial, userActivityDays, hfuel]
    exact dayLoop_full_length n startMs

/-- C8 witness: with an existing user, the inverted range `[1, 0]` yields
the 200-with-no-days response, and the 100-day range starting at 0 yields
101 day entries. -/
theorem c8_witness :
    userActivityGET true 1 0 = ⟨200, []⟩
    ∧ (userActivityGET true 0 (0 + 86400000 * ((100 : Nat) : Int))).days.length = 100 + 1 := by
  exact ⟨c8_no_range_validation.1 1 0 (by decide), (c8_no_range_validation.2 0 100).2⟩

/-- C2 counterexample: the user-timelines handler that filters with
`log.timestamp <= blockEnd` assigns a snapshot observed exactly at the
boundary `dayStart + 15min` to block 0 — the block that ends at that
boundary — contradicting the claimed tie-break for that route. -/
theorem c2_counterexample_inclusive_route :
    (⟨1, "active", 900000⟩ : PLog) ∈ blockLogsInclAt [⟨1, "active", 900000⟩] 0 0
    ∧ blockEndMs 0 0 0 = 900000 := by
  decide

/-- C2 (amended): under the half-open filter
`blockStart <= t < blockEnd` used by the other handlers, a snapshot
observed exactly at the end boundary of block `k` is assigned to block
`k + 1`, the block starting at that boundary, and not to block `k`. -/
theorem c2_half_open_boundary_tie_break (dayStart : Int) (dayLogs : List PLog)
    (l : PLog) (k : Nat) (_hk : k < 95) (hmem : l ∈ dayLogs)
    (hts : l.timestamp = blockEndMs dayStart (k / 4) (k % 4)) :
    l ∈ blockLogsAt dayLogs dayStart (k + 1) ∧ l ∉ blockLogsAt dayLogs dayStart k := by
  simp only [blockLogsAt, blockLogsHalfOpen, List.mem_filter, decide_eq_true_eq,
    blockStartMs, blockEndMs] at *
  refine ⟨⟨hmem, ?_, ?_⟩, ?_⟩
  · push_cast
    omega
  · push_cast
    omega
  · rintro ⟨-, h1, h2⟩
    push_cast at h1 h2
    omega

/-- C2 witness: a snapshot at exactly `dayStart + 15min` lands in block 1
and not in block 0 under the half-open rule. -/
theorem c2_witness :
    (⟨2, "away", 900000⟩ : PLog) ∈ blockLogsAt [⟨2, "away", 900000⟩] 0 1
    ∧ (⟨2, "away", 900000⟩ : PLog) ∉ blockLogsAt [⟨2, "away", 900000⟩] 0 0 := by
  exact c2_half_open_boundary_tie_break 0 [⟨2, "away", 900000⟩] ⟨2, "away", 900000⟩ 0
    (by decide) (by decide) (by decide)

/-- Helper: the nested hour/quarter loops of the presence-data today
timeline enumerate the 96 flat block indices in order. -/
theorem todayTimeline_eq_map (dayStart : Int) (logs : List PLog) :
    todayTimeline dayStart logs
      = (List.range 96).map fun i => mkTodayBlock dayStart logs (i / 4) (i % 4) := rfl

/-- C3 counterexample: the `src/app/api/dashboard/user-timelines` route
builds `blockEnd` with `setHours(hour, quarter*15 + 14, 59, 999)`, so
block 0 ends at `dayStart + 899999` ms while block 1 starts at
`dayStart + 900000` ms, and block 95 ends at `dayStart + 24h - 1` ms —
the claimed grid equalities fail on that route's timeline. -/
theorem c3_counterexample_user_timelines_grid :
    ((userTimelinesDayTimeline 0 []).getD 0 default).blockEnd = 899999
    ∧ ((userTimelinesDayTimeline 0 []).getD 1 default).blockStart = 900000
    ∧ ((userTimelinesDayTimeline 0 []).getD 0 default).blockEnd
        ≠ ((userTimelinesDayTimeline 0 []).getD 1 default).blockStart
    ∧ ((userTimelinesDayTimeline 0 []).getD 95 default).blockEnd ≠ 0 + 86400000 := by
  decide

/-- C3 (amended): the presence-data handlers, which set
`blockEnd = blockStart + 15 * 60 * 1000`, do satisfy the grid invariant:
adjacent blocks meet exactly, block 0 starts at `dayStart`, and block 95
ends at `dayStart + 24h`. -/
theorem c3_grid_invariant_presence_data (dayStart : Int) (logs : List PLog) :
    (∀ i : Nat, i < 95 →
      ((todayTimeline dayStart logs).getD i default).blockEnd
        = ((todayTimeline dayStart logs).getD (i + 1) default).blockStart)
    ∧ ((todayTimeline dayStart logs).getD 0 default).blockStart = dayStart
    ∧ ((todayTimeline dayStart logs).getD 95 default).blockEnd = dayStart + 86400000 := by
  refine ⟨?_, ?_, ?_⟩
  · intro i hi
    rw [todayTimeline_eq_map, List.getD_eq_getElem?_getD, List.getD_eq_getElem?_getD,
      List.getElem?_map, List.getElem?_map, List.getElem?_range (by omega : i < 96),
      List.getElem?_range (by omega : i + 1 < 96)]
    simp only [Option.map_some', Option.getD_some]
    simp only [mkTodayBlock, blockEndMs, blockStartMs]
    omega
  · show (mkTodayBlock dayStart logs 0 0).blockStart = dayStart
    simp [mkTodayBlock, blockStartMs]
  · show (mkTodayBlock dayStart logs 23 3).blockEnd = dayStart + 86400000
    simp only [mkTodayBlock, blockEndMs, blockStartMs]
    omega

/-- C3 witness: on the concrete day starting at 0 with no snapshots,
block 0 of the presence-data grid ends where block 1 starts, block 0
starts at 0 and block 95 ends at 86400000. -/
theorem c3_witness :
    ((todayTimeline 0 []).getD 0 default).blockEnd = ((todayTimeline 0 []).getD 1 default).blockStart
    ∧ ((todayTimeline 0 []).getD 0 default).blockStart = 0
    ∧ ((todayTimeline 0 []).getD 95 default).blockEnd = 0 + 86400000 := by
  exact ⟨(c3_grid_invariant_presence_data 0 []).1 0 (by decide),
    (c3_grid_invariant_presence_data 0 []).2.1, (c3_grid_invariant_presence_data 0 []).2.2⟩

/-- C6 counterexample: the presence-data handler reports the status of
the most recent snapshot of the trailing 15 minutes, so an active
snapshot 10 minutes ago followed by an away snapshot 1 minute ago yields
`false`, while the claim requires `true`. -/
theorem c6_counterexample_most_recent_rule :
    isCurrentlyOnlinePresenceData
      [⟨1, "active", 999400000⟩, ⟨1, "away", 999940000⟩] 1000000000 = false := by
  decide

/-- C6 (amended): the today-overview handler implements the claimed
predicate — it returns true exactly when some active snapshot lies in the
trailing 15 minutes, and in particular returns true on the
active-then-away scenario; the presence-data handler instead reports the
most recent in-window snapshot's status. -/
theorem c6_overview_exists_predicate :
    (∀ (logs : List PLog) (nowMs : Int),
      isCurrentlyOnlineTodayOverview logs nowMs = true
        ↔ ∃ l ∈ logs, l.status = "active" ∧ nowMs - 15 * 60 * 1000 ≤ l.timestamp)
    ∧ isCurrentlyOnlineTodayOverview
        [⟨1, "active", 999400000⟩, ⟨1, "away", 999940000⟩] 1000000000 = true := by
  constructor
  · intro logs nowMs
    simp only [isCurrentlyOnlineTodayOverview, isActiveLog, decide_eq_true_eq,
      List.length_pos_iff_exists_mem, List.mem_filter, Bool.and_eq_true, beq_iff_eq]
    constructor
    · rintro ⟨l, hl, ht, hs⟩
      exact ⟨l, hl, hs, ht⟩
    · rintro ⟨l, hl, hs, ht⟩
      exact ⟨l, hl, by omega, hs⟩
  · decide

/-- C1 counterexample: under the inclusive filter of the third
presence-data handler, a snapshot observed exactly at the boundary
`dayStart + 15min` is a member of the snapshot list of block 0 and of
block 1 simultaneously — it is not assigned to exactly one block. -/
theorem c1_counterexample_inclusive_double_count :
    (⟨1, "active", 900000⟩ : PLog) ∈ blockLogsInclAt [⟨1, "active", 900000⟩] 0 0
    ∧ (⟨1, "active", 900000⟩ : PLog) ∈ blockLogsInclAt [⟨1, "active", 900000⟩] 0 1 := by
  decide

/-- C1 (amended): the half-open assignment used by the other handlers is
a partition of the day: every snapshot in `[dayStart, dayStart + 24h)`
belongs to exactly one of the 96 blocks, and every block member is an
in-range input snapshot — nothing is dropped or double-counted.  The
third presence-data handler's inclusive filter double-assigns boundary
snapshots instead. -/
theorem c1_half_open_partition (dayStart : Int) (logs : List PLog) :
    (∀ l ∈ logs, dayStart ≤ l.timestamp → l.timestamp < dayStart + 86400000 →
      ∃ i, i < 96 ∧ l ∈ blockLogsAt logs dayStart i
        ∧ ∀ j, j < 96 → l ∈ blockLogsAt logs dayStart j → j = i)
    ∧ (∀ i, i < 96 → ∀ l ∈ blockLogsAt logs dayStart i,
        l ∈ logs ∧ dayStart ≤ l.timestamp ∧ l.timestamp < dayStart + 86400000) := by
  constructor
  · intro l hl h1 h2
    refine ⟨(l.timestamp - dayStart).toNat / 900000, by omega, ?_, ?_⟩
    · simp only [blockLogsAt, blockLogsHalfOpen, List.mem_filter, decide_eq_true_eq,
        blockStartMs, blockEndMs]
      exact ⟨hl, by omega, by omega⟩
    · intro j hj hjm
      simp only [blockLogsAt, blockLogsHalfOpen, List.mem_filter, decide_eq_true_eq,
        blockStartMs, blockEndMs] at hjm
      obtain ⟨-, hj1, hj2⟩ := hjm
      omega
  · intro i hi l hlm
    simp only [blockLogsAt, blockLogsHalfOpen, List.mem_filter, decide_eq_true_eq,
      blockStartMs, blockEndMs] at hlm
    obtain ⟨hmem, hb1, hb2⟩ := hlm
    exact ⟨hmem, by omega, by omega⟩

/-- C1 witness: a snapshot at 450000 ms into the day starting at 0 is
assigned to exactly one block (block 0). -/
theorem c1_witness :
    ∃ i, i < 96 ∧ (⟨3, "away", 450000⟩ : PLog) ∈ blockLogsAt [⟨3, "away", 450000⟩] 0 i
      ∧ ∀ j, j < 96 → (⟨3, "away", 450000⟩ : PLog) ∈ blockLogsAt [⟨3, "away", 450000⟩] 0 j → j = i := by
  exact (c1_half_open_partition 0 [⟨3, "away", 450000⟩]).1 ⟨3, "away", 450000⟩
    (by decide) (by decide) (by decide)

/-- Helper: the `(userId asc, timestamp asc)` comparison is transitive. -/
theorem presenceKeyLe_trans (a b c : PLog) (hab : presenceKeyLe a b = true)
    (hbc : presenceKeyLe b c = true) : presenceKeyLe a c = true := by
  simp only [presenceKeyLe, decide_eq_true_eq] at *
  omega

/-- Helper: the `(userId asc, timestamp asc)` comparison is total. -/
theorem presenceKeyLe_total (a b : PLog) : (presenceKeyLe a b || presenceKeyLe b a) = true := by
  simp only [presenceKeyLe, Bool.or_eq_true, decide_eq_true_eq]
  omega

/-- C10: both multi-day fetches are truncated exactly as the `take`
limits dictate: the historical-window query returns
`min(inRangeCount, 40000)` rows and the active-only query
`min(inRangeCount, 15000)` rows, each drawn from the in-range rows of the
store (so any excess rows are silently absent), each sorted by
`(userId asc, timestamp asc)`, and the active-only rows all have
`status = 'active'`; no error value exists on this path. -/
theorem c10_fetch_truncation (store : List PLog)
    (timelineRangeStart todayStart rangeStart rangeEnd : Int) :
    (fetchHistoricalWindow store timelineRangeStart todayStart).length
      = min ((store.filter fun r =>
          decide (timelineRangeStart ≤ r.timestamp ∧ r.timestamp < todayStart)).length) 40000
    ∧ (∀ r ∈ fetchHistoricalWindow store timelineRangeStart todayStart,
        r ∈ store ∧ timelineRangeStart ≤ r.timestamp ∧ r.timestamp < todayStart)
    ∧ List.Pairwise (fun a b => presenceKeyLe a b = true)
        (fetchHistoricalWindow store timelineRangeStart todayStart)
    ∧ (fetchActiveWindow store rangeStart rangeEnd).length
      = min ((store.filter fun r =>
          decide (rangeStart ≤ r.timestamp ∧ r.timestamp ≤ rangeEnd) && isActiveLog r).length) 15000
    ∧ (∀ r ∈ fetchActiveWindow store rangeStart rangeEnd, r ∈ store ∧ r.status = "active")
    ∧ List.Pairwise (fun a b => presenceKeyLe a b = true)
        (fetchActiveWindow store rangeStart rangeEnd) := by
  refine ⟨?_, ?_, ?_, ?_, ?_, ?_⟩
  · rw [fetchHistoricalWindow, List.length_take, List.length_mergeSort]
    exact Nat.min_comm _ _
  · intro r hr
    have h1 := List.mem_of_mem_take hr
    have h2 := (List.mergeSort_perm _ presenceKeyLe).subset h1
    rw [List.mem_filter, decide_eq_true_eq] at h2
    exact ⟨h2.1, h2.2⟩
  · exact List.Pairwise.sublist (List.take_sublist _ _)
      (List.sorted_mergeSort presenceKeyLe_trans presenceKeyLe_total _)
  · rw [fetchActiveWindow, List.length_take, List.length_mergeSort]
    exact Nat.min_comm _ _
  · intro r hr
    have h1 := List.mem_of_mem_take hr
    have h2 := (List.mergeSort_perm _ presenceKeyLe).subset h1
    rw [List.mem_filter, Bool.and_eq_true] at h2
    refine ⟨h2.1, ?_⟩
    have := h2.2.2
    rwa [isActiveLog, beq_iff_eq] at this
  · exact List.Pairwise.sublist (List.take_sublist _ _)
      (List.sorted_mergeSort presenceKeyLe_trans presenceKeyLe_total _)

/-- C10 witness: the single in-range row of a one-row store survives the
historical fetch and is indeed in range. -/
theorem c10_witness :
    (⟨1, "active", 3⟩ : PLog) ∈ ([⟨1, "active", 3⟩] : List PLog)
    ∧ (0 : Int) ≤ (⟨1, "active", 3⟩ : PLog).timestamp
    ∧ (⟨1, "active", 3⟩ : PLog).timestamp < 10 := by
  have h : fetchHistoricalWindow [⟨1, "active", 3⟩] 0 10 = [⟨1, "active", 3⟩] := by
    simp [fetchHistoricalWindow, List.mergeSort]
  exact (c10_fetch_truncation [⟨1, "active", 3⟩] 0 10 0 10).2.1 ⟨1, "active", 3⟩
    (by rw [h]; exact List.mem_singleton_self _)

end SlackPresence
